import Mathlib

/-!
Verification of the Farm2Home dynamic-pricing optimizer
(`predict_optimal_discount_fastapi` in `backend/ml_service/app.py`).

The Python float arithmetic is shallow-embedded over `ℚ`; the history store
(SQLite table `dynamic_pricing_predictions`) is embedded as a list of records,
newest first; the external regression scaler/model and the category encoder are
opaque function parameters, exactly as they are external collaborators of the
core.
-/

/-- A row of the `dynamic_pricing_predictions` table, as read by the
aggregation queries (only the columns the optimizer reads are kept). -/
structure HistoryRecord where
  product_id : String
  product_name : String
  base_price : ℚ
  category : String
  past_sales_volume : ℚ
  deriving DecidableEq

/-- The pricing request (`DynamicPricingRequest`), with the temporal context
already defaulted (the source defaults `month`/`day_of_week`/`is_weekend`
from the clock when absent; they only enter the external feature vector). -/
structure PricingRequest where
  product_id : String
  product_name : String
  base_price : ℚ
  category : String
  past_sales_volume : ℚ
  month : ℚ
  day_of_week : ℚ
  is_weekend : ℚ
  deriving DecidableEq

/-- The returned result dictionary of `predict_optimal_discount_fastapi`. -/
structure PricingResult where
  product : String
  optimal_discount : ℚ
  expected_revenue : ℚ
  final_selling_price : ℚ
  confidence : String
  deriving DecidableEq

/-- ASCII lowercasing, mirroring Python `str.lower()` on the category keys. -/
def lowerStr (s : String) : String := ⟨s.data.map Char.toLower⟩

/-- Sum/length average; defaults to `0` on `[]` (division by zero in `ℚ`),
matching the source's `same_name_sales_avg = 0` initialization. -/
def listAvg (l : List ℚ) : ℚ := l.sum / l.length

/-- Maximum of a list, `0` on `[]` (matching the `= 0` initializations). -/
def listMax : List ℚ → ℚ
  | [] => 0
  | x :: xs => xs.foldl max x

/-- Minimum of a list, `0` on `[]` (matching the `= 0` initializations). -/
def listMin : List ℚ → ℚ
  | [] => 0
  | x :: xs => xs.foldl min x

/-- Query `WHERE product_name = ? AND product_id != ? ORDER BY createdAt DESC
LIMIT 50`; the store list is taken newest-first. -/
def same_name_products (store : List HistoryRecord) (name pid : String) :
    List HistoryRecord :=
  (store.filter (fun r => r.product_name == name && r.product_id != pid)).take 50

/-- The `if product_name:` guard around the same-name query. -/
def same_name_list (store : List HistoryRecord) (req : PricingRequest) :
    List HistoryRecord :=
  if req.product_name = "" then []
  else same_name_products store req.product_name req.product_id

/-- `same_name_sales = [row[0] for row in same_name_products if row[0] > 0]`. -/
def same_name_sales (store : List HistoryRecord) (req : PricingRequest) : List ℚ :=
  ((same_name_list store req).map (·.past_sales_volume)).filter
    (fun v => decide (0 < v))

/-- `same_name_prices = [row[1] for row in same_name_products if row[1] > 0]`. -/
def same_name_prices (store : List HistoryRecord) (req : PricingRequest) : List ℚ :=
  ((same_name_list store req).map (·.base_price)).filter (fun v => decide (0 < v))

/-- Query `SELECT DISTINCT past_sales_volume ... WHERE category = ? AND
past_sales_volume > 0` (exact, case-sensitive category match). -/
def category_sales (store : List HistoryRecord) (cat : String) : List ℚ :=
  ((store.filter (fun r => r.category == cat && decide (0 < r.past_sales_volume))).map
    (·.past_sales_volume)).dedup

/-- Percentile rank of `past_sales_volume` among the category's distinct
positive sales volumes; `50` when the category has no data. -/
def sales_volume_percentile (store : List HistoryRecord) (cat : String)
    (past_sales_volume : ℚ) : ℚ :=
  let cs := category_sales store cat
  if cs.isEmpty then 50
  else ((cs.filter (fun s => decide (s < past_sales_volume))).length : ℚ) /
    (cs.length : ℚ) * 100

/-- Query `SELECT DISTINCT base_price ... WHERE category = ? AND base_price > 0`
(exact, case-sensitive category match). -/
def category_prices (store : List HistoryRecord) (cat : String) : List ℚ :=
  ((store.filter (fun r => r.category == cat && decide (0 < r.base_price))).map
    (·.base_price)).dedup

/-- Percentile rank of `base_price` among the category's distinct positive
prices; `50` when the category has no data. -/
def price_percentile (store : List HistoryRecord) (cat : String)
    (base_price : ℚ) : ℚ :=
  let cp := category_prices store cat
  if cp.isEmpty then 50
  else ((cp.filter (fun p => decide (p < base_price))).length : ℚ) /
    (cp.length : ℚ) * 100

/-- `price_factor = min(1.5, max(0.5, base_price / 50))`. -/
def price_factor (base_price : ℚ) : ℚ := min 1.5 (max 0.5 (base_price / 50))

/-- Tiered base elasticity before the category multiplier. -/
def base_elasticity_pre (base_price past_sales_volume : ℚ) : ℚ :=
  if 500 < past_sales_volume then -2.0 * price_factor base_price
  else if 100 < past_sales_volume then -2.2 * price_factor base_price
  else if 0 < past_sales_volume then -2.5 * price_factor base_price
  else -2.3 * price_factor base_price

/-- Tiered baseline quantity (`base_quantity` in the source). -/
def base_quantity (past_sales_volume : ℚ) : ℚ :=
  if 500 < past_sales_volume then max 15 (past_sales_volume / 40)
  else if 100 < past_sales_volume then max 8 (past_sales_volume / 25)
  else if 0 < past_sales_volume then max 5 (past_sales_volume / 15)
  else 6

/-- The `category_multipliers` dictionary. -/
def category_multipliers : List (String × ℚ) :=
  [("vegetables", 1.1), ("fruits", 1.0), ("dairy", 0.9), ("grains", 0.85),
   ("spices", 1.2), ("pulses", 0.9), ("oil", 1.0), ("nuts", 1.15)]

/-- `category_multipliers.get(category.lower(), 1.0)`. -/
def category_multiplier (category : String) : ℚ :=
  (category_multipliers.lookup (lowerStr category)).getD 1.0

/-- `base_elasticity *= category_multiplier`. -/
def base_elasticity (base_price : ℚ) (category : String)
    (past_sales_volume : ℚ) : ℚ :=
  base_elasticity_pre base_price past_sales_volume * category_multiplier category

/-- `price_sensitivity = min(1.5, max(0.8, base_price / 40))`. -/
def price_sensitivity (base_price : ℚ) : ℚ := min 1.5 (max 0.8 (base_price / 40))

/-- The per-candidate expected quantity:
`base_quantity * quantity_elasticity_boost * conversion_boost`. -/
def expected_quantity (base_price bq be d : ℚ) : ℚ :=
  let price_change_pct := d / 100
  let elasticity_magnitude := |be|
  let quantity_elasticity_boost := 1 + elasticity_magnitude * price_change_pct
  let conversion_boost := 1 + price_change_pct * 1.2 * price_sensitivity base_price
  bq * quantity_elasticity_boost * conversion_boost

/-- `expected_revenue_direct = discounted_price * expected_quantity`; this is
the primary revenue figure used for ranking, and is also the formula the
source re-runs on the adjusted discount. -/
def direct_revenue (base_price bq be d : ℚ) : ℚ :=
  base_price * (1 - d / 100) * expected_quantity base_price bq be d

/-- `discount_range = np.arange(0, 31, 0.5)`: 62 values `0, 0.5, …, 30.5`. -/
def discount_range : List ℚ := (List.range 62).map (fun i : ℕ => (i : ℚ) / 2)

/-- A row of `revenue_predictions` (the per-candidate dict). -/
structure GridEntry where
  discount : ℚ
  revenue : ℚ
  discounted_price : ℚ
  deriving DecidableEq

/-- The grid-search loop over `discount_range`.  The external scaler and
regression model are consulted per candidate (`predicted_revenue_model`) but
the direct elasticity figure is kept as `final_expected_revenue`; candidates
with non-positive revenue are not appended. -/
def revenue_predictions (scaler : List ℚ → List ℚ) (model_predict : List ℚ → ℚ)
    (category_encoded : ℚ) (req : PricingRequest) (sales_pct be bq : ℚ) :
    List GridEntry :=
  discount_range.filterMap (fun discount_pct =>
    let discounted_price := req.base_price * (1 - discount_pct / 100)
    let elasticity := be * (1 + discount_pct / 100 * 0.2)
    let features := [req.base_price, discount_pct, category_encoded,
      req.past_sales_volume, elasticity, req.month, req.day_of_week,
      req.is_weekend, sales_pct]
    let features_scaled := scaler features
    let predicted_revenue_model := model_predict features_scaled
    let final_expected_revenue := direct_revenue req.base_price bq be discount_pct
    if 0 < final_expected_revenue then
      some ⟨discount_pct, final_expected_revenue, discounted_price⟩
    else none)

/-- One step of pandas `idxmax`: keep the earlier entry on ties. -/
def pickMax (p q : GridEntry) : GridEntry :=
  if p.revenue < q.revenue then q else p

/-- `revenue_df['revenue'].idxmax()`: the first entry attaining the maximum
revenue, `none` on the empty table. -/
def idxmaxEntry : List GridEntry → Option GridEntry
  | [] => none
  | e :: rest => some (rest.foldl pickMax e)

/-- The volume brackets of the same-name branch, in source order. -/
def volume_adjustment (past_sales_volume mn avg mx : ℚ) : ℚ :=
  if past_sales_volume = 0 then 6
  else if past_sales_volume < mn then 5
  else if past_sales_volume < avg * 0.5 then 4
  else if past_sales_volume < avg then 2.5
  else if past_sales_volume < avg * 1.5 then 0.5
  else if mx ≤ past_sales_volume then -4
  else -2.5

/-- The same-name price comparison (guarded by `len(same_name_prices) > 0`). -/
def price_adjustment (base_price : ℚ) (prices : List ℚ) : ℚ :=
  if prices.isEmpty then 0
  else
    let same_name_price_avg := listAvg prices
    let same_name_price_max := listMax prices
    if same_name_price_max < base_price then 2.5
    else if same_name_price_avg * 1.2 < base_price then 1.5
    else if base_price < same_name_price_avg * 0.8 then -1
    else 0

/-- The category-percentile branch (no usable same-name history). -/
def category_adjustment (sales_pct : ℚ) : ℚ :=
  if sales_pct < 25 then 4
  else if sales_pct < 50 then 2
  else if 75 ≤ sales_pct then -3
  else 0

/-- The price-position adjustment applied after either branch. -/
def price_position_adjustment (price_pct : ℚ) : ℚ :=
  if 75 < price_pct then 2
  else if price_pct < 25 then -1.5
  else 0

/-- The complete additive output adjustment: same-name branch when
`same_name_count > 0 and len(same_name_sales) > 0`, otherwise the category
branch; the price-position term is always added. -/
def discount_adjustment (same_name_count : ℕ) (sales prices : List ℚ)
    (base_price past_sales_volume sales_pct price_pct : ℚ) : ℚ :=
  (if 0 < same_name_count ∧ sales ≠ [] then
    volume_adjustment past_sales_volume (listMin sales) (listAvg sales)
      (listMax sales) + price_adjustment base_price prices
  else category_adjustment sales_pct) + price_position_adjustment price_pct

/-- `optimal_discount = max(5.0, min(30.0, model_optimal_discount +
discount_adjustment))`, with the adjustment statistics drawn from the store. -/
def final_discount (store : List HistoryRecord) (req : PricingRequest)
    (model_discount : ℚ) : ℚ :=
  max 5 (min 30 (model_discount +
    discount_adjustment (same_name_list store req).length
      (same_name_sales store req) (same_name_prices store req)
      req.base_price req.past_sales_volume
      (sales_volume_percentile store req.category req.past_sales_volume)
      (price_percentile store req.category req.base_price)))

/-- Remove the first occurrence of `x` (the effect of taking the second row of
pandas `nlargest(2)`). -/
def removeFirst (x : ℚ) : List ℚ → List ℚ
  | [] => []
  | y :: ys => if y = x then ys else y :: removeFirst x ys

/-- The confidence computation over the grid table's revenues:
`(max − second_max) / (second_max + 1e-6) * 100`, then `>10 ⇒ High`,
`>5 ⇒ Medium`, else `Low`. -/
def confidence_rating (l : List GridEntry) : String :=
  let revs := l.map GridEntry.revenue
  let max_revenue := listMax revs
  let second_max_revenue :=
    if 1 < l.length then listMax (removeFirst max_revenue revs) else max_revenue
  let revenue_diff_pct :=
    (max_revenue - second_max_revenue) / (second_max_revenue + 1 / 1000000) * 100
  if 10 < revenue_diff_pct then "High"
  else if 5 < revenue_diff_pct then "Medium"
  else "Low"

/-- Round-half-to-even to an integer (Python `round` on the exact value). -/
def roundHalfEven (x : ℚ) : ℤ :=
  if x - ⌊x⌋ < 1 / 2 then ⌊x⌋
  else if 1 / 2 < x - ⌊x⌋ then ⌊x⌋ + 1
  else if ⌊x⌋ % 2 = 0 then ⌊x⌋ else ⌊x⌋ + 1

/-- Python `round(x, 2)` on the exact value. -/
def round2 (x : ℚ) : ℚ := (roundHalfEven (100 * x) : ℚ) / 100

/-- The grid table with its inputs derived from the request and store, as
assembled inside `predict_optimal_discount_fastapi`. -/
def grid_table (scaler : List ℚ → List ℚ) (model_predict : List ℚ → ℚ)
    (encode : String → ℚ) (store : List HistoryRecord) (req : PricingRequest) :
    List GridEntry :=
  revenue_predictions scaler model_predict (encode req.category) req
    (sales_volume_percentile store req.category req.past_sales_volume)
    (base_elasticity req.base_price req.category req.past_sales_volume)
    (base_quantity req.past_sales_volume)

/-- The value `model_optimal_discount` read off the grid table (`0` in the
degenerate case, where the variable is assigned directly). -/
def model_optimal_discount (scaler : List ℚ → List ℚ) (model_predict : List ℚ → ℚ)
    (encode : String → ℚ) (store : List HistoryRecord) (req : PricingRequest) : ℚ :=
  match idxmaxEntry (grid_table scaler model_predict encode store req) with
  | none => 0
  | some best => best.discount

/-- The whole optimizer `predict_optimal_discount_fastapi`: aggregation,
elasticity model, grid search, output adjustment, recomputation of the revenue
and price at the adjusted discount, confidence, and the 2-decimal rounding of
the returned money fields. -/
def predict_optimal_discount (scaler : List ℚ → List ℚ)
    (model_predict : List ℚ → ℚ) (encode : String → ℚ)
    (store : List HistoryRecord) (req : PricingRequest) : PricingResult :=
  let be := base_elasticity req.base_price req.category req.past_sales_volume
  let bq := base_quantity req.past_sales_volume
  let preds := grid_table scaler model_predict encode store req
  match idxmaxEntry preds with
  | none =>
      { product := req.product_id
        optimal_discount := round2 0
        expected_revenue := round2 (req.base_price * bq)
        final_selling_price := round2 req.base_price
        confidence := "Low" }
  | some best =>
      let optimal_discount := final_discount store req best.discount
      { product := req.product_id
        optimal_discount := round2 optimal_discount
        expected_revenue :=
          round2 (direct_revenue req.base_price bq be optimal_discount)
        final_selling_price :=
          round2 (req.base_price * (1 - optimal_discount / 100))
        confidence := confidence_rating preds }

/-- The grid table's revenue column (`revenue_df['revenue']`). -/
def grid_revenues (scaler : List ℚ → List ℚ) (model_predict : List ℚ → ℚ)
    (encode : String → ℚ) (store : List HistoryRecord) (req : PricingRequest) :
    List ℚ :=
  (grid_table scaler model_predict encode store req).map GridEntry.revenue

/-- `max_revenue = revenue_df['revenue'].max()`. -/
def max_revenue (scaler : List ℚ → List ℚ) (model_predict : List ℚ → ℚ)
    (encode : String → ℚ) (store : List HistoryRecord) (req : PricingRequest) : ℚ :=
  listMax (grid_revenues scaler model_predict encode store req)

/-- `second_max_revenue`: the second row of `nlargest(2)` when the table has
more than one row, otherwise the maximum itself. -/
def second_max_revenue (scaler : List ℚ → List ℚ) (model_predict : List ℚ → ℚ)
    (encode : String → ℚ) (store : List HistoryRecord) (req : PricingRequest) : ℚ :=
  if 1 < (grid_table scaler model_predict encode store req).length then
    listMax (removeFirst (max_revenue scaler model_predict encode store req)
      (grid_revenues scaler model_predict encode store req))
  else max_revenue scaler model_predict encode store req

/-- `revenue_diff_pct = ((max - second_max) / (second_max + 1e-6)) * 100`. -/
def revenue_diff_pct (scaler : List ℚ → List ℚ) (model_predict : List ℚ → ℚ)
    (encode : String → ℚ) (store : List HistoryRecord) (req : PricingRequest) : ℚ :=
  (max_revenue scaler model_predict encode store req -
      second_max_revenue scaler model_predict encode store req) /
    (second_max_revenue scaler model_predict encode store req + 1 / 1000000) * 100

/-- Modelled from the spec: first-match evaluation of an ordered rule list
("evaluate top-to-bottom as listed, first matching bracket wins"). -/
def first_match : List (Bool × ℚ) → ℚ → ℚ
  | [], dflt => dflt
  | (c, v) :: rest, dflt => if c then v else first_match rest dflt

/-- Modelled from the spec: the same-name volume brackets in the order the
spec lists them (volume `= 0`, `< min`, `< 0.5×avg`, `< avg`, `< 1.5×avg`,
`≥ max`, else). -/
def volume_adjustment_fromSpec (psv mn avg mx : ℚ) : ℚ :=
  first_match [(decide (psv = 0), 6), (decide (psv < mn), 5),
    (decide (psv < 0.5 * avg), 4), (decide (psv < avg), 2.5),
    (decide (psv < 1.5 * avg), 0.5), (decide (mx ≤ psv), -4)] (-2.5)

/-- Modelled from the spec: the category sales-percentile rules in listed
order (`<25`, `<50`, `≥75`, else). -/
def category_adjustment_fromSpec (pct : ℚ) : ℚ :=
  first_match [(decide (pct < 25), 4), (decide (pct < 50), 2),
    (decide (75 ≤ pct), -3)] 0

/-- Modelled from the spec: the category price-percentile rule applied after
either branch (`>75`, `<25`, else). -/
def price_position_fromSpec (pct : ℚ) : ℚ :=
  first_match [(decide (75 < pct), 2), (decide (pct < 25), -1.5)] 0

/-- Modelled from the spec: `clamp(x, lo, hi)`. -/
def clamp (lo hi x : ℚ) : ℚ := max lo (min hi x)

/-- A pass-through stand-in for the external feature scaler. -/
def idScaler : List ℚ → List ℚ := fun l => l

/-- A constant stand-in for the external regression model. -/
def zeroModel : List ℚ → ℚ := fun _ => 0

/-- A constant stand-in for the category encoder. -/
def zeroEncoder : String → ℚ := fun _ => 0

/-- Concrete request: vegetables at price 100 with no history. -/
def reqVeg : PricingRequest := ⟨"p1", "apple", 100, "vegetables", 0, 1, 1, 0⟩

/-- Concrete request whose final price has more than two decimals. -/
def reqOdd : PricingRequest := ⟨"p1", "apple", 10.01, "misc", 0, 1, 1, 0⟩

/-- Concrete request with a negative base price. -/
def reqNeg : PricingRequest := ⟨"p9", "x", -10, "misc", 0, 1, 1, 0⟩

/-- A one-record history store in category "dairy" (lower case). -/
def storeDairy : List HistoryRecord := [⟨"p2", "other", 100, "dairy", 10⟩]

/-- Request against `storeDairy` with category written "dairy". -/
def reqDairyLower : PricingRequest := ⟨"p1", "apple", 50, "dairy", 20, 1, 1, 0⟩

/-- Request identical to `reqDairyLower` except for the category's case. -/
def reqDairyUpper : PricingRequest := ⟨"p1", "apple", 50, "Dairy", 20, 1, 1, 0⟩

set_option maxRecDepth 2000000

/-! ### List helper lemmas -/

theorem foldl_max_spec (l : List ℚ) : ∀ a : ℚ,
    (l.foldl max a = a ∨ l.foldl max a ∈ l) ∧ a ≤ l.foldl max a ∧
      ∀ y ∈ l, y ≤ l.foldl max a := by
  induction l with
  | nil => intro a; exact ⟨Or.inl rfl, le_refl a, by simp⟩
  | cons b l ih =>
    intro a
    have h := ih (max a b)
    have hstep : (b :: l).foldl max a = l.foldl max (max a b) := rfl
    refine ⟨?_, ?_, ?_⟩
    · rcases h.1 with h1 | h1
      · rcases le_total a b with hab | hab
        · right; rw [hstep, h1, max_eq_right hab]; exact List.mem_cons_self _ _
        · left; rw [hstep, h1, max_eq_left hab]
      · right; rw [hstep]; exact List.mem_cons_of_mem _ h1
    · rw [hstep]; exact le_trans (le_max_left a b) h.2.1
    · intro y hy
      rcases List.mem_cons.1 hy with rfl | hy
      · rw [hstep]; exact le_trans (le_max_right a y) h.2.1
      · rw [hstep]; exact h.2.2 y hy

theorem listMax_mem (x : ℚ) (l : List ℚ) : listMax (x :: l) ∈ x :: l := by
  have h := foldl_max_spec l x
  rcases h.1 with h1 | h1
  · rw [listMax, h1]; exact List.mem_cons_self _ _
  · exact List.mem_cons_of_mem _ h1

theorem le_listMax (x : ℚ) (l : List ℚ) : ∀ y ∈ x :: l, y ≤ listMax (x :: l) := by
  intro y hy
  have h := foldl_max_spec l x
  rcases List.mem_cons.1 hy with rfl | hy
  · exact h.2.1
  · exact h.2.2 y hy

theorem foldl_pickMax_spec : ∀ (l : List GridEntry) (p : GridEntry),
    (l.foldl pickMax p = p ∧ ∀ e ∈ l, e.revenue ≤ p.revenue) ∨
    (∃ i : ℕ, ∃ hi : i < l.length,
      l.foldl pickMax p = l[i] ∧ p.revenue < l[i].revenue ∧
      (∀ e ∈ l, e.revenue ≤ l[i].revenue) ∧
      ∀ j : ℕ, ∀ hj : j < l.length, j < i → l[j].revenue < l[i].revenue)
  | [], p => Or.inl ⟨rfl, by simp⟩
  | q :: l, p => by
    have hstep : (q :: l).foldl pickMax p = l.foldl pickMax (pickMax p q) := rfl
    rcases lt_or_le p.revenue q.revenue with hq | hq
    · have hpq : pickMax p q = q := if_pos hq
      rcases foldl_pickMax_spec l q with ⟨heq, hle⟩ | ⟨i, hi, heq, hlt, hle, hfirst⟩
      · refine Or.inr ⟨0, by simp, ?_, by simpa using hq, ?_, ?_⟩
        · rw [hstep, hpq, heq]; simp
        · intro e he
          rcases List.mem_cons.1 he with rfl | he
          · simp
          · simpa using hle e he
        · intro j hj hj0; omega
      · refine Or.inr ⟨i + 1, by simpa using Nat.succ_lt_succ hi, ?_, ?_, ?_, ?_⟩
        · rw [hstep, hpq, heq]; simp
        · simpa using lt_trans hq hlt
        · intro e he
          rcases List.mem_cons.1 he with rfl | he
          · simpa using le_of_lt hlt
          · simpa using hle e he
        · intro j hj hji
          match j, hj with
          | 0, _ => simpa using hlt
          | j' + 1, hj =>
            have : j' < i := by omega
            simpa using hfirst j' (by simpa using Nat.lt_of_succ_lt_succ hj) this
    · have hpq : pickMax p q = p := if_neg (not_lt.2 hq)
      rcases foldl_pickMax_spec l p with ⟨heq, hle⟩ | ⟨i, hi, heq, hlt, hle, hfirst⟩
      · refine Or.inl ⟨by rw [hstep, hpq, heq], ?_⟩
        intro e he
        rcases List.mem_cons.1 he with rfl | he
        · exact hq
        · exact hle e he
      · refine Or.inr ⟨i + 1, by simpa using Nat.succ_lt_succ hi, ?_, ?_, ?_, ?_⟩
        · rw [hstep, hpq, heq]; simp
        · simpa using hlt
        · intro e he
          rcases List.mem_cons.1 he with rfl | he
          · simpa using le_trans hq (le_of_lt hlt)
          · simpa using hle e he
        · intro j hj hji
          match j, hj with
          | 0, _ => simpa using lt_of_le_of_lt hq hlt
          | j' + 1, hj =>
            have : j' < i := by omega
            simpa using hfirst j' (by simpa using Nat.lt_of_succ_lt_succ hj) this

theorem idxmaxEntry_spec (l : List GridEntry) (h : l ≠ []) :
    ∃ i : ℕ, ∃ hi : i < l.length, idxmaxEntry l = some l[i] ∧
      (∀ e ∈ l, e.revenue ≤ l[i].revenue) ∧
      ∀ j : ℕ, ∀ hj : j < l.length, j < i → l[j].revenue < l[i].revenue := by
  match l with
  | [] => exact absurd rfl h
  | p :: rest =>
    rcases foldl_pickMax_spec rest p with ⟨heq, hle⟩ | ⟨i, hi, heq, hlt, hle, hfirst⟩
    · refine ⟨0, by simp, ?_, ?_, ?_⟩
      · simp [idxmaxEntry, heq]
      · intro e he
        rcases List.mem_cons.1 he with rfl | he
        · simp
        · simpa using hle e he
      · intro j hj hj0; omega
    · refine ⟨i + 1, by simpa using Nat.succ_lt_succ hi, ?_, ?_, ?_⟩
      · simp [idxmaxEntry, heq]
      · intro e he
        rcases List.mem_cons.1 he with rfl | he
        · simpa using le_of_lt hlt
        · simpa using hle e he
      · intro j hj hji
        match j, hj with
        | 0, _ => simpa using hlt
        | j' + 1, hj =>
          have : j' < i := by omega
          simpa using hfirst j' (by simpa using Nat.lt_of_succ_lt_succ hj) this

theorem idxmaxEntry_eq_none (l : List GridEntry) : idxmaxEntry l = none ↔ l = [] := by
  cases l <;> simp [idxmaxEntry]

/-! ### Half-integer values and the 2-decimal rounding -/

/-- Multiples of one half: every grid candidate and every adjustment constant
is one, so 2-decimal rounding leaves the final discount unchanged. -/
def IsHalfInt (x : ℚ) : Prop := ∃ k : ℤ, x = k / 2

theorem IsHalfInt.add {x y : ℚ} (hx : IsHalfInt x) (hy : IsHalfInt y) :
    IsHalfInt (x + y) := by
  obtain ⟨k, rfl⟩ := hx
  obtain ⟨m, rfl⟩ := hy
  exact ⟨k + m, by push_cast; ring⟩

theorem IsHalfInt.max {x y : ℚ} (hx : IsHalfInt x) (hy : IsHalfInt y) :
    IsHalfInt (max x y) := by
  rcases le_total x y with h | h
  · rw [max_eq_right h]; exact hy
  · rw [max_eq_left h]; exact hx

theorem IsHalfInt.min {x y : ℚ} (hx : IsHalfInt x) (hy : IsHalfInt y) :
    IsHalfInt (min x y) := by
  rcases le_total x y with h | h
  · rw [min_eq_left h]; exact hx
  · rw [min_eq_right h]; exact hy

theorem roundHalfEven_intCast (n : ℤ) : roundHalfEven (n : ℚ) = n := by
  unfold roundHalfEven
  rw [Int.floor_intCast]
  rw [if_pos]
  rw [sub_self]
  norm_num

theorem round2_halfInt {x : ℚ} (h : IsHalfInt x) : round2 x = x := by
  obtain ⟨k, rfl⟩ := h
  unfold round2
  have h1 : (100 : ℚ) * ((k : ℚ) / 2) = ((50 * k : ℤ) : ℚ) := by push_cast; ring
  rw [h1, roundHalfEven_intCast]
  push_cast; ring

theorem roundHalfEven_nonpos {x : ℚ} (h : x ≤ 0) : roundHalfEven x ≤ 0 := by
  have hf : (⌊x⌋ : ℚ) ≤ x := Int.floor_le x
  have h0 : ⌊x⌋ ≤ 0 := Int.floor_nonpos h
  unfold roundHalfEven
  split_ifs with h1 h2 h3
  · exact h0
  · have : ⌊x⌋ < 0 := by
      rcases lt_or_eq_of_le h0 with hlt | heq
      · exact hlt
      · exfalso
        rw [heq] at h2
        push_cast at h2
        linarith
    omega
  · exact h0
  · have : ⌊x⌋ < 0 := by
      rcases lt_or_eq_of_le h0 with hlt | heq
      · exact hlt
      · exfalso
        rw [heq] at h1
        push_cast at h1
        linarith
    omega

theorem round2_nonpos {x : ℚ} (h : x ≤ 0) : round2 x ≤ 0 := by
  unfold round2
  have h1 : roundHalfEven (100 * x) ≤ 0 := roundHalfEven_nonpos (by linarith)
  have h2 : ((roundHalfEven (100 * x) : ℤ) : ℚ) ≤ 0 := by exact_mod_cast h1
  linarith

/-! ### Sign and bound lemmas for the elasticity and grid formulas -/

theorem price_factor_lb (bp : ℚ) : (0.5 : ℚ) ≤ price_factor bp :=
  le_min (by norm_num) (le_max_left _ _)

theorem price_factor_pos (bp : ℚ) : 0 < price_factor bp :=
  lt_of_lt_of_le (by norm_num) (price_factor_lb bp)

theorem price_sensitivity_lb (bp : ℚ) : (0.8 : ℚ) ≤ price_sensitivity bp :=
  le_min (by norm_num) (le_max_left _ _)

theorem base_quantity_pos (psv : ℚ) : 0 < base_quantity psv := by
  unfold base_quantity
  split_ifs with h1 h2 h3
  · exact lt_of_lt_of_le (by norm_num) (le_max_left _ _)
  · exact lt_of_lt_of_le (by norm_num) (le_max_left _ _)
  · exact lt_of_lt_of_le (by norm_num) (le_max_left _ _)
  · norm_num

theorem expected_quantity_pos (bp bq be d : ℚ) (hbq : 0 < bq) (hd : 0 ≤ d) :
    0 < expected_quantity bp bq be d := by
  show 0 < bq * (1 + |be| * (d / 100)) * (1 + d / 100 * 1.2 * price_sensitivity bp)
  have h1 : 0 ≤ |be| * (d / 100) := mul_nonneg (abs_nonneg be) (by linarith)
  have hps : (0.8 : ℚ) ≤ price_sensitivity bp := price_sensitivity_lb bp
  have h2 : 0 ≤ d / 100 * 1.2 * price_sensitivity bp :=
    mul_nonneg (mul_nonneg (by linarith) (by norm_num)) (by linarith)
  have g1 : 0 < 1 + |be| * (d / 100) := by linarith
  have g2 : 0 < 1 + d / 100 * 1.2 * price_sensitivity bp := by linarith
  exact mul_pos (mul_pos hbq g1) g2

theorem direct_revenue_pos (bp bq be d : ℚ) (hbp : 0 < bp) (hbq : 0 < bq)
    (hd0 : 0 ≤ d) (hd1 : d ≤ 61 / 2) : 0 < direct_revenue bp bq be d := by
  unfold direct_revenue
  have h1 : 0 < 1 - d / 100 := by linarith
  exact mul_pos (mul_pos hbp h1) (expected_quantity_pos bp bq be d hbq hd0)

theorem direct_revenue_neg (bp bq be d : ℚ) (hbp : bp < 0) (hbq : 0 < bq)
    (hd0 : 0 ≤ d) (hd1 : d ≤ 61 / 2) : direct_revenue bp bq be d < 0 := by
  unfold direct_revenue
  have h1 : 0 < 1 - d / 100 := by linarith
  exact mul_neg_of_neg_of_pos (mul_neg_of_neg_of_pos hbp h1)
    (expected_quantity_pos bp bq be d hbq hd0)

theorem mem_discount_range {d : ℚ} (h : d ∈ discount_range) :
    0 ≤ d ∧ d ≤ 61 / 2 ∧ IsHalfInt d := by
  rw [discount_range, List.mem_map] at h
  obtain ⟨i, hi, rfl⟩ := h
  rw [List.mem_range] at hi
  have hle : (i : ℚ) ≤ 61 := by exact_mod_cast Nat.le_of_lt_succ hi
  have h0 : (0 : ℚ) ≤ (i : ℚ) := by positivity
  exact ⟨by linarith, by linarith, ⟨(i : ℤ), by push_cast; ring⟩⟩

/-! ### The grid table -/

theorem filterMap_eq_map_of_forall {α β : Type} (f : α → Option β) (g : α → β) :
    ∀ l : List α, (∀ a ∈ l, f a = some (g a)) → l.filterMap f = l.map g
  | [], _ => rfl
  | a :: l, h => by
    rw [List.filterMap_cons, h a (List.mem_cons_self a l), List.map_cons,
      filterMap_eq_map_of_forall f g l (fun b hb => h b (List.mem_cons_of_mem a hb))]

theorem revenue_predictions_eq_map (scaler : List ℚ → List ℚ)
    (model_predict : List ℚ → ℚ) (c : ℚ) (req : PricingRequest) (pct be bq : ℚ)
    (h : ∀ d ∈ discount_range, 0 < direct_revenue req.base_price bq be d) :
    revenue_predictions scaler model_predict c req pct be bq =
      discount_range.map (fun d =>
        ⟨d, direct_revenue req.base_price bq be d,
          req.base_price * (1 - d / 100)⟩) := by
  unfold revenue_predictions
  apply filterMap_eq_map_of_forall
  intro d hd
  show (if 0 < direct_revenue req.base_price bq be d then
      some (⟨d, direct_revenue req.base_price bq be d,
        req.base_price * (1 - d / 100)⟩ : GridEntry)
    else none) = _
  rw [if_pos (h d hd)]

theorem grid_table_eq_map (scaler : List ℚ → List ℚ) (model_predict : List ℚ → ℚ)
    (encode : String → ℚ) (store : List HistoryRecord) (req : PricingRequest)
    (h : 0 < req.base_price) :
    grid_table scaler model_predict encode store req =
      discount_range.map (fun d =>
        ⟨d, direct_revenue req.base_price (base_quantity req.past_sales_volume)
            (base_elasticity req.base_price req.category req.past_sales_volume) d,
          req.base_price * (1 - d / 100)⟩) := by
  unfold grid_table
  apply revenue_predictions_eq_map
  intro d hd
  obtain ⟨h0, h1, _⟩ := mem_discount_range hd
  exact direct_revenue_pos _ _ _ _ h (base_quantity_pos _) h0 h1

theorem grid_table_length (scaler : List ℚ → List ℚ) (model_predict : List ℚ → ℚ)
    (encode : String → ℚ) (store : List HistoryRecord) (req : PricingRequest)
    (h : 0 < req.base_price) :
    (grid_table scaler model_predict encode store req).length = 62 := by
  rw [grid_table_eq_map scaler model_predict encode store req h]
  simp [discount_range]

theorem grid_table_ne_nil (scaler : List ℚ → List ℚ) (model_predict : List ℚ → ℚ)
    (encode : String → ℚ) (store : List HistoryRecord) (req : PricingRequest)
    (h : 0 < req.base_price) :
    grid_table scaler model_predict encode store req ≠ [] := by
  intro hnil
  have := grid_table_length scaler model_predict encode store req h
  rw [hnil] at this
  simp at this

theorem grid_if_some {bp bq be d dp : ℚ} {e : GridEntry}
    (h : (if 0 < direct_revenue bp bq be d then
        some (⟨d, direct_revenue bp bq be d, dp⟩ : GridEntry)
      else none) = some e) :
    e = ⟨d, direct_revenue bp bq be d, dp⟩ ∧ 0 < direct_revenue bp bq be d := by
  by_cases hpos : 0 < direct_revenue bp bq be d
  · rw [if_pos hpos] at h
    cases Option.some.inj h
    exact ⟨rfl, hpos⟩
  · rw [if_neg hpos] at h
    exact absurd h (by simp)

theorem revenue_predictions_mem (scaler : List ℚ → List ℚ)
    (model_predict : List ℚ → ℚ) (c : ℚ) (req : PricingRequest) (pct be bq : ℚ) :
    ∀ e ∈ revenue_predictions scaler model_predict c req pct be bq,
      e.discount ∈ discount_range ∧ 0 < e.revenue ∧
        e.revenue = direct_revenue req.base_price bq be e.discount := by
  intro e he
  unfold revenue_predictions at he
  obtain ⟨d, hd, hfd⟩ := List.mem_filterMap.1 he
  have h2 : (if 0 < direct_revenue req.base_price bq be d then
      some (⟨d, direct_revenue req.base_price bq be d,
        req.base_price * (1 - d / 100)⟩ : GridEntry)
    else none) = some e := hfd
  obtain ⟨rfl, hpos⟩ := grid_if_some h2
  exact ⟨hd, hpos, rfl⟩

theorem revenue_predictions_sorted (scaler : List ℚ → List ℚ)
    (model_predict : List ℚ → ℚ) (c : ℚ) (req : PricingRequest) (pct be bq : ℚ) :
    List.Pairwise (fun a b : GridEntry => a.discount < b.discount)
      (revenue_predictions scaler model_predict c req pct be bq) := by
  unfold revenue_predictions
  apply List.pairwise_filterMap.2
  have hp : List.Pairwise (fun a b : ℚ => a < b) discount_range := by
    unfold discount_range
    refine List.Pairwise.map (fun i : ℕ => (i : ℚ) / 2) ?_ (List.pairwise_lt_range 62)
    intro a b hab
    have hc : (a : ℚ) < b := by exact_mod_cast hab
    linarith
  refine hp.imp ?_
  intro a b hab x hx y hy
  rw [Option.mem_def] at hx hy
  have hxa : x = ⟨a, direct_revenue req.base_price bq be a,
      req.base_price * (1 - a / 100)⟩ := (grid_if_some hx).1
  have hyb : y = ⟨b, direct_revenue req.base_price bq be b,
      req.base_price * (1 - b / 100)⟩ := (grid_if_some hy).1
  rw [hxa, hyb]
  exact hab

/-! ### Unfolding the two branches of the optimizer -/

theorem predict_eq_fallback (scaler : List ℚ → List ℚ) (model_predict : List ℚ → ℚ)
    (encode : String → ℚ) (store : List HistoryRecord) (req : PricingRequest)
    (h : idxmaxEntry (grid_table scaler model_predict encode store req) = none) :
    predict_optimal_discount scaler model_predict encode store req =
      { product := req.product_id
        optimal_discount := round2 0
        expected_revenue := round2 (req.base_price * base_quantity req.past_sales_volume)
        final_selling_price := round2 req.base_price
        confidence := "Low" } := by
  unfold predict_optimal_discount
  simp only [h]

theorem predict_eq_main (scaler : List ℚ → List ℚ) (model_predict : List ℚ → ℚ)
    (encode : String → ℚ) (store : List HistoryRecord) (req : PricingRequest)
    (best : GridEntry)
    (h : idxmaxEntry (grid_table scaler model_predict encode store req) = some best) :
    predict_optimal_discount scaler model_predict encode store req =
      { product := req.product_id
        optimal_discount := round2 (final_discount store req best.discount)
        expected_revenue := round2 (direct_revenue req.base_price
          (base_quantity req.past_sales_volume)
          (base_elasticity req.base_price req.category req.past_sales_volume)
          (final_discount store req best.discount))
        final_selling_price := round2 (req.base_price *
          (1 - final_discount store req best.discount / 100))
        confidence := confidence_rating
          (grid_table scaler model_predict encode store req) } := by
  unfold predict_optimal_discount
  simp only [h]

/-! ### The final discount is a clamped half-integer -/

theorem volume_adjustment_halfInt (a b c d : ℚ) :
    IsHalfInt (volume_adjustment a b c d) := by
  unfold volume_adjustment
  split_ifs <;>
    first
      | (refine ⟨12, ?_⟩; norm_num; done)
      | (refine ⟨10, ?_⟩; norm_num; done)
      | (refine ⟨8, ?_⟩; norm_num; done)
      | (refine ⟨5, ?_⟩; norm_num; done)
      | (refine ⟨1, ?_⟩; norm_num; done)
      | (refine ⟨-8, ?_⟩; norm_num; done)
      | (refine ⟨-5, ?_⟩; norm_num; done)

theorem price_adjustment_halfInt (bp : ℚ) (l : List ℚ) :
    IsHalfInt (price_adjustment bp l) := by
  unfold price_adjustment
  by_cases h1 : l.isEmpty = true
  · rw [if_pos h1]
    exact ⟨0, by norm_num⟩
  · rw [if_neg h1]
    show IsHalfInt (if listMax l < bp then (2.5 : ℚ)
      else if listAvg l * 1.2 < bp then 1.5
      else if bp < listAvg l * 0.8 then -1 else 0)
    split_ifs <;>
      first
        | (refine ⟨5, ?_⟩; norm_num; done)
        | (refine ⟨3, ?_⟩; norm_num; done)
        | (refine ⟨-2, ?_⟩; norm_num; done)
        | (refine ⟨0, ?_⟩; norm_num; done)

theorem category_adjustment_halfInt (pct : ℚ) :
    IsHalfInt (category_adjustment pct) := by
  unfold category_adjustment
  split_ifs <;>
    first
      | (refine ⟨8, ?_⟩; norm_num; done)
      | (refine ⟨4, ?_⟩; norm_num; done)
      | (refine ⟨-6, ?_⟩; norm_num; done)
      | (refine ⟨0, ?_⟩; norm_num; done)

theorem price_position_adjustment_halfInt (pct : ℚ) :
    IsHalfInt (price_position_adjustment pct) := by
  unfold price_position_adjustment
  split_ifs <;>
    first
      | (refine ⟨4, ?_⟩; norm_num; done)
      | (refine ⟨-3, ?_⟩; norm_num; done)
      | (refine ⟨0, ?_⟩; norm_num; done)

theorem discount_adjustment_halfInt (n : ℕ) (sales prices : List ℚ)
    (bp psv spct ppct : ℚ) :
    IsHalfInt (discount_adjustment n sales prices bp psv spct ppct) := by
  unfold discount_adjustment
  refine IsHalfInt.add ?_ (price_position_adjustment_halfInt ppct)
  split_ifs
  · exact IsHalfInt.add (volume_adjustment_halfInt _ _ _ _)
      (price_adjustment_halfInt _ _)
  · exact category_adjustment_halfInt _

theorem final_discount_halfInt (store : List HistoryRecord) (req : PricingRequest)
    {d : ℚ} (hd : IsHalfInt d) : IsHalfInt (final_discount store req d) := by
  unfold final_discount
  exact IsHalfInt.max ⟨10, by norm_num⟩
    (IsHalfInt.min ⟨60, by norm_num⟩ (hd.add (discount_adjustment_halfInt _ _ _ _ _ _ _)))

theorem final_discount_bounds (store : List HistoryRecord) (req : PricingRequest)
    (d : ℚ) : 5 ≤ final_discount store req d ∧ final_discount store req d ≤ 30 := by
  unfold final_discount
  exact ⟨le_max_left _ _, max_le (by norm_num) (min_le_left _ _)⟩

theorem grid_table_mem (scaler : List ℚ → List ℚ) (model_predict : List ℚ → ℚ)
    (encode : String → ℚ) (store : List HistoryRecord) (req : PricingRequest) :
    ∀ e ∈ grid_table scaler model_predict encode store req,
      e.discount ∈ discount_range ∧ 0 < e.revenue ∧
        e.revenue = direct_revenue req.base_price (base_quantity req.past_sales_volume)
          (base_elasticity req.base_price req.category req.past_sales_volume)
          e.discount := by
  intro e he
  exact revenue_predictions_mem _ _ _ _ _ _ _ e he

theorem grid_table_sorted (scaler : List ℚ → List ℚ) (model_predict : List ℚ → ℚ)
    (encode : String → ℚ) (store : List HistoryRecord) (req : PricingRequest) :
    List.Pairwise (fun a b : GridEntry => a.discount < b.discount)
      (grid_table scaler model_predict encode store req) :=
  revenue_predictions_sorted _ _ _ _ _ _ _

/-! ### The claims -/

/-- C1: for every pricing request with positive base price, every grid
candidate has positive primary revenue, so the degenerate fallback branch
(discount 0.0) is never taken, and the returned final discount lies in
[5.0, 30.0]. -/
theorem C1_discount_bounds (scaler : List ℚ → List ℚ) (model_predict : List ℚ → ℚ)
    (encode : String → ℚ) (store : List HistoryRecord) (req : PricingRequest)
    (h : 0 < req.base_price) :
    (∀ d ∈ discount_range, 0 < direct_revenue req.base_price
      (base_quantity req.past_sales_volume)
      (base_elasticity req.base_price req.category req.past_sales_volume) d) ∧
    grid_table scaler model_predict encode store req ≠ [] ∧
    5 ≤ (predict_optimal_discount scaler model_predict encode store req).optimal_discount ∧
    (predict_optimal_discount scaler model_predict encode store req).optimal_discount ≤ 30 := by
  have hall : ∀ d ∈ discount_range, 0 < direct_revenue req.base_price
      (base_quantity req.past_sales_volume)
      (base_elasticity req.base_price req.category req.past_sales_volume) d := by
    intro d hd
    obtain ⟨h0, h1, _⟩ := mem_discount_range hd
    exact direct_revenue_pos _ _ _ _ h (base_quantity_pos _) h0 h1
  have hne := grid_table_ne_nil scaler model_predict encode store req h
  obtain ⟨i, hi, hidx, hle, hfirst⟩ := idxmaxEntry_spec _ hne
  have hdisc := (grid_table_mem scaler model_predict encode store req _
    (List.getElem_mem hi)).1
  have hround := round2_halfInt (final_discount_halfInt store req
    (mem_discount_range hdisc).2.2)
  refine ⟨hall, hne, ?_, ?_⟩
  · rw [predict_eq_main scaler model_predict encode store req _ hidx]
    dsimp only
    rw [hround]
    exact (final_discount_bounds store req _).1
  · rw [predict_eq_main scaler model_predict encode store req _ hidx]
    dsimp only
    rw [hround]
    exact (final_discount_bounds store req _).2

/-- Witness for C1 at a concrete request. -/
theorem C1_discount_bounds_witness :
    0 < reqVeg.base_price ∧
    5 ≤ (predict_optimal_discount idScaler zeroModel zeroEncoder [] reqVeg).optimal_discount ∧
    (predict_optimal_discount idScaler zeroModel zeroEncoder [] reqVeg).optimal_discount ≤ 30 :=
  ⟨by norm_num [reqVeg],
    (C1_discount_bounds idScaler zeroModel zeroEncoder [] reqVeg
      (by norm_num [reqVeg])).2.2⟩

/-- C3 counterexample: the grid has 62 candidates, contains 30.5, and is not
the 61-point grid {0.0, …, 30.0} the claim states. -/
theorem C3_grid_is_62_points_cex :
    discount_range.length = 62 ∧ (30.5 : ℚ) ∈ discount_range ∧
      (30.5 : ℚ) ∉ (List.range 61).map (fun i : ℕ => (i : ℚ) / 2) := by
  with_unfolding_all decide

/-- C3 (amended): the revenue grid search evaluates exactly the 62 candidate
discounts {0.0, 0.5, …, 30.5} (np.arange(0, 31, 0.5)) and, among candidates
with positive primary revenue, selects the one with maximum primary expected
revenue, breaking ties by the smallest discount (the first occurrence in
ascending grid order). -/
theorem C3_grid_selection (scaler : List ℚ → List ℚ) (model_predict : List ℚ → ℚ)
    (encode : String → ℚ) (store : List HistoryRecord) (req : PricingRequest)
    (h : 0 < req.base_price) :
    discount_range = (List.range 62).map (fun i : ℕ => (i : ℚ) / 2) ∧
    ∃ best : GridEntry,
      idxmaxEntry (grid_table scaler model_predict encode store req) = some best ∧
      best ∈ grid_table scaler model_predict encode store req ∧
      (∀ e ∈ grid_table scaler model_predict encode store req, 0 < e.revenue) ∧
      (∀ e ∈ grid_table scaler model_predict encode store req,
        e.revenue ≤ best.revenue) ∧
      (∀ e ∈ grid_table scaler model_predict encode store req,
        e.revenue = best.revenue → best.discount ≤ e.discount) ∧
      (predict_optimal_discount scaler model_predict encode store req).optimal_discount =
        final_discount store req best.discount := by
  have hne := grid_table_ne_nil scaler model_predict encode store req h
  obtain ⟨i, hi, hidx, hle, hfirst⟩ := idxmaxEntry_spec _ hne
  refine ⟨rfl, _, hidx, List.getElem_mem hi,
    fun e he => (grid_table_mem scaler model_predict encode store req e he).2.1,
    hle, ?_, ?_⟩
  · intro e he heq
    obtain ⟨j, hj, hej⟩ := List.getElem_of_mem he
    rcases lt_trichotomy j i with hji | hjeq | hij
    · exfalso
      have hlt := hfirst j hj hji
      rw [hej, heq] at hlt
      exact lt_irrefl _ hlt
    · subst hjeq
      exact le_of_eq (by rw [← hej])
    · have hs := grid_table_sorted scaler model_predict encode store req
      have hlt := List.pairwise_iff_getElem.1 hs i j hi hj hij
      rw [hej] at hlt
      exact le_of_lt hlt
  · rw [predict_eq_main scaler model_predict encode store req _ hidx]
    dsimp only
    exact round2_halfInt (final_discount_halfInt store req
      (mem_discount_range ((grid_table_mem scaler model_predict encode store req _
        (List.getElem_mem hi)).1)).2.2)

/-- Witness for C3 at a concrete request. -/
theorem C3_grid_selection_witness :
    0 < reqVeg.base_price ∧
    discount_range = (List.range 62).map (fun i : ℕ => (i : ℚ) / 2) :=
  ⟨by norm_num [reqVeg],
    (C3_grid_selection idScaler zeroModel zeroEncoder [] reqVeg
      (by norm_num [reqVeg])).1⟩

/-- C7 counterexample: at base price 50 the category-unadjusted elasticity
magnitude at volume 1 is 2.5, strictly above the 2.3 at volume 0, so the
sequence at 0, 1, … is not strictly decreasing. -/
theorem C7_not_strictly_decreasing_cex :
    ¬ (|base_elasticity_pre 50 1| < |base_elasticity_pre 50 0|) := by
  with_unfolding_all decide

/-- C7 (amended): the category-unadjusted elasticity magnitude is constant on
each positive tier (equal at 1 and 100, equal at 101 and 500) and strictly
decreases across tier boundaries (1 → 101 → 501); the `=0` tier's magnitude
lies strictly between the `>100` tier's and the `>0` tier's, so the sequence
at 0, 1, 100, 101, 500, 501 is not strictly decreasing: it rises from 0 to 1
and is flat inside tiers. -/
theorem C7_tier_monotonicity (bp : ℚ) :
    |base_elasticity_pre bp 1| = |base_elasticity_pre bp 100| ∧
    |base_elasticity_pre bp 101| = |base_elasticity_pre bp 500| ∧
    |base_elasticity_pre bp 101| < |base_elasticity_pre bp 1| ∧
    |base_elasticity_pre bp 501| < |base_elasticity_pre bp 101| ∧
    |base_elasticity_pre bp 0| < |base_elasticity_pre bp 1| ∧
    |base_elasticity_pre bp 101| < |base_elasticity_pre bp 0| := by
  have hpf : (0.5 : ℚ) ≤ price_factor bp := price_factor_lb bp
  have habs : ∀ c : ℚ, 0 ≤ c → |(-c) * price_factor bp| = c * price_factor bp := by
    intro c hc
    rw [abs_mul, abs_neg, abs_of_nonneg hc,
      abs_of_nonneg (le_trans (by norm_num) hpf)]
  have e0 : base_elasticity_pre bp 0 = -2.3 * price_factor bp := by
    unfold base_elasticity_pre; norm_num
  have e1 : base_elasticity_pre bp 1 = -2.5 * price_factor bp := by
    unfold base_elasticity_pre; norm_num
  have e100 : base_elasticity_pre bp 100 = -2.5 * price_factor bp := by
    unfold base_elasticity_pre; norm_num
  have e101 : base_elasticity_pre bp 101 = -2.2 * price_factor bp := by
    unfold base_elasticity_pre; norm_num
  have e500 : base_elasticity_pre bp 500 = -2.2 * price_factor bp := by
    unfold base_elasticity_pre; norm_num
  have e501 : base_elasticity_pre bp 501 = -2.0 * price_factor bp := by
    unfold base_elasticity_pre; norm_num
  rw [e0, e1, e100, e101, e500, e501, habs 2.3 (by norm_num),
    habs 2.5 (by norm_num), habs 2.2 (by norm_num), habs 2.0 (by norm_num)]
  exact ⟨rfl, rfl, by linarith, by linarith, by linarith, by linarith⟩

/-- C9: two runs that differ only in the external scaler/regression model
outputs return identical results; the per-candidate scorer output is computed
and discarded. -/
theorem C9_scorer_ignored (scaler1 scaler2 : List ℚ → List ℚ)
    (model1 model2 : List ℚ → ℚ) (encode : String → ℚ)
    (store : List HistoryRecord) (req : PricingRequest) :
    predict_optimal_discount scaler1 model1 encode store req =
      predict_optimal_discount scaler2 model2 encode store req := rfl

/-- C4: the adjustment engine takes the same-name branch exactly when
`same_name_count > 0` and at least one same-name sales volume is positive; the
volume brackets, category-percentile rules and price-percentile rule coincide
with the spec's ordered first-match rule lists; the price-percentile rule is
applied after either branch; and the final discount is
clamp(grid discount + total adjustment, 5.0, 30.0). -/
theorem C4_adjustment_engine :
    (∀ psv mn avg mx : ℚ,
      volume_adjustment psv mn avg mx = volume_adjustment_fromSpec psv mn avg mx) ∧
    (∀ pct : ℚ, category_adjustment pct = category_adjustment_fromSpec pct) ∧
    (∀ pct : ℚ, price_position_adjustment pct = price_position_fromSpec pct) ∧
    (∀ (n : ℕ) (sales prices : List ℚ) (bp psv spct ppct : ℚ),
      discount_adjustment n sales prices bp psv spct ppct =
        (if 0 < n ∧ sales ≠ [] then
          volume_adjustment_fromSpec psv (listMin sales) (listAvg sales)
            (listMax sales) + price_adjustment bp prices
        else category_adjustment_fromSpec spct) + price_position_fromSpec ppct) ∧
    (∀ (scaler : List ℚ → List ℚ) (model_predict : List ℚ → ℚ)
      (encode : String → ℚ) (store : List HistoryRecord) (req : PricingRequest),
      (predict_optimal_discount scaler model_predict encode store req).optimal_discount =
        if grid_table scaler model_predict encode store req = [] then 0
        else final_discount store req
          (model_optimal_discount scaler model_predict encode store req)) := by
  have hvol : ∀ psv mn avg mx : ℚ,
      volume_adjustment psv mn avg mx = volume_adjustment_fromSpec psv mn avg mx := by
    intro psv mn avg mx
    unfold volume_adjustment volume_adjustment_fromSpec
    simp only [first_match, decide_eq_true_eq]
    rw [show avg * 0.5 = 0.5 * avg from mul_comm _ _,
      show avg * 1.5 = 1.5 * avg from mul_comm _ _]
  have hcat : ∀ pct : ℚ, category_adjustment pct = category_adjustment_fromSpec pct := by
    intro pct
    unfold category_adjustment category_adjustment_fromSpec
    simp only [first_match, decide_eq_true_eq]
  have hpp : ∀ pct : ℚ,
      price_position_adjustment pct = price_position_fromSpec pct := by
    intro pct
    unfold price_position_adjustment price_position_fromSpec
    simp only [first_match, decide_eq_true_eq]
  refine ⟨hvol, hcat, hpp, ?_, ?_⟩
  · intro n sales prices bp psv spct ppct
    unfold discount_adjustment
    rw [hvol, hcat, hpp]
  · intro scaler model_predict encode store req
    by_cases hnil : grid_table scaler model_predict encode store req = []
    · rw [if_pos hnil, predict_eq_fallback scaler model_predict encode store req
        ((idxmaxEntry_eq_none _).2 hnil)]
      dsimp only
      exact round2_halfInt ⟨0, by norm_num⟩
    · rw [if_neg hnil]
      obtain ⟨i, hi, hidx, _, _⟩ := idxmaxEntry_spec _ hnil
      rw [predict_eq_main scaler model_predict encode store req _ hidx]
      dsimp only
      unfold model_optimal_discount
      rw [hidx]
      exact round2_halfInt (final_discount_halfInt store req
        (mem_discount_range ((grid_table_mem scaler model_predict encode store req _
          (List.getElem_mem hi)).1)).2.2)

/-- C6: the elasticity model: clamped price factor, the four sales tiers with
their elasticities and baseline volumes, and the category multiplier table
with case-insensitive lookup and default 1.0 for unknown categories. -/
theorem C6_elasticity_model :
    (∀ bp : ℚ, price_factor bp = clamp 0.5 1.5 (bp / 50)) ∧
    (∀ bp psv : ℚ, 500 < psv →
      base_elasticity_pre bp psv = -2.0 * price_factor bp ∧
        base_quantity psv = max 15 (psv / 40)) ∧
    (∀ bp psv : ℚ, 100 < psv → psv ≤ 500 →
      base_elasticity_pre bp psv = -2.2 * price_factor bp ∧
        base_quantity psv = max 8 (psv / 25)) ∧
    (∀ bp psv : ℚ, 0 < psv → psv ≤ 100 →
      base_elasticity_pre bp psv = -2.5 * price_factor bp ∧
        base_quantity psv = max 5 (psv / 15)) ∧
    (∀ bp : ℚ, base_elasticity_pre bp 0 = -2.3 * price_factor bp ∧
      base_quantity 0 = 6) ∧
    (∀ (bp : ℚ) (cat : String) (psv : ℚ), base_elasticity bp cat psv =
      base_elasticity_pre bp psv * category_multiplier cat) ∧
    (category_multiplier "vegetables" = 1.1 ∧ category_multiplier "fruits" = 1.0 ∧
      category_multiplier "dairy" = 0.9 ∧ category_multiplier "grains" = 0.85 ∧
      category_multiplier "spices" = 1.2 ∧ category_multiplier "pulses" = 0.9 ∧
      category_multiplier "oil" = 1.0 ∧ category_multiplier "nuts" = 1.15) ∧
    (category_multiplier "VEGETABLES" = 1.1 ∧ category_multiplier "Dairy" = 0.9 ∧
      category_multiplier "unknown" = 1.0) ∧
    (∀ c : String, category_multipliers.lookup (lowerStr c) = none →
      category_multiplier c = 1.0) := by
  refine ⟨?_, ?_, ?_, ?_, ?_, fun bp cat psv => rfl, ?_, ?_, ?_⟩
  · intro bp
    unfold price_factor clamp
    rw [max_min_distrib_left]
    rw [show max (0.5 : ℚ) 1.5 = 1.5 from max_eq_right (by norm_num)]
  · intro bp psv h1
    constructor
    · unfold base_elasticity_pre; rw [if_pos h1]
    · unfold base_quantity; rw [if_pos h1]
  · intro bp psv h1 h2
    have hn : ¬ 500 < psv := not_lt.2 h2
    constructor
    · unfold base_elasticity_pre; rw [if_neg hn, if_pos h1]
    · unfold base_quantity; rw [if_neg hn, if_pos h1]
  · intro bp psv h1 h2
    have hn1 : ¬ 500 < psv := not_lt.2 (le_trans h2 (by norm_num))
    have hn2 : ¬ 100 < psv := not_lt.2 h2
    constructor
    · unfold base_elasticity_pre; rw [if_neg hn1, if_neg hn2, if_pos h1]
    · unfold base_quantity; rw [if_neg hn1, if_neg hn2, if_pos h1]
  · intro bp
    constructor
    · unfold base_elasticity_pre; norm_num
    · unfold base_quantity; norm_num
  · exact ⟨by with_unfolding_all decide, by with_unfolding_all decide,
      by with_unfolding_all decide, by with_unfolding_all decide,
      by with_unfolding_all decide, by with_unfolding_all decide,
      by with_unfolding_all decide, by with_unfolding_all decide⟩
  · exact ⟨by with_unfolding_all decide, by with_unfolding_all decide,
      by with_unfolding_all decide⟩
  · intro c hc
    unfold category_multiplier
    rw [hc]
    rfl

/-- Witness for C6 at a concrete tier boundary value. -/
theorem C6_elasticity_model_witness :
    (100 : ℚ) < 250 ∧ (250 : ℚ) ≤ 500 ∧
      base_elasticity_pre 50 250 = -2.2 * price_factor 50 ∧
      base_quantity 250 = max 8 (250 / 25) := by
  refine ⟨by norm_num, by norm_num, ?_, ?_⟩
  · exact (C6_elasticity_model.2.2.1 50 250 (by norm_num) (by norm_num)).1
  · exact (C6_elasticity_model.2.2.1 50 250 (by norm_num) (by norm_num)).2

theorem removeFirst_subset (x : ℚ) (l : List ℚ) : ∀ y ∈ removeFirst x l, y ∈ l := by
  induction l with
  | nil => intro y hy; simpa [removeFirst] using hy
  | cons z zs ih =>
    intro y hy
    by_cases hz : z = x
    · simp only [removeFirst, if_pos hz] at hy
      exact List.mem_cons_of_mem _ hy
    · simp only [removeFirst, if_neg hz] at hy
      rcases List.mem_cons.1 hy with rfl | hy
      · exact List.mem_cons_self _ _
      · exact List.mem_cons_of_mem _ (ih y hy)

/-- C5: confidence is computed from the grid table's primary revenues with
`(max − second_max) / (second_max + 1e-6) × 100`, rated High above 10,
Medium above 5, Low otherwise; `max` is the greatest grid revenue and the
`second_max` never exceeds it. -/
theorem C5_confidence (scaler : List ℚ → List ℚ) (model_predict : List ℚ → ℚ)
    (encode : String → ℚ) (store : List HistoryRecord) (req : PricingRequest)
    (h : 0 < req.base_price) :
    (predict_optimal_discount scaler model_predict encode store req).confidence =
      (if 10 < revenue_diff_pct scaler model_predict encode store req then "High"
       else if 5 < revenue_diff_pct scaler model_predict encode store req then "Medium"
       else "Low") ∧
    max_revenue scaler model_predict encode store req ∈
      grid_revenues scaler model_predict encode store req ∧
    (∀ r ∈ grid_revenues scaler model_predict encode store req,
      r ≤ max_revenue scaler model_predict encode store req) ∧
    second_max_revenue scaler model_predict encode store req ≤
      max_revenue scaler model_predict encode store req := by
  have hne := grid_table_ne_nil scaler model_predict encode store req h
  obtain ⟨e, rest, hl⟩ := List.exists_cons_of_ne_nil hne
  have hmax_mem : max_revenue scaler model_predict encode store req ∈
      grid_revenues scaler model_predict encode store req := by
    unfold max_revenue grid_revenues
    rw [hl, List.map_cons]
    exact listMax_mem _ _
  have hmax_le : ∀ r ∈ grid_revenues scaler model_predict encode store req,
      r ≤ max_revenue scaler model_predict encode store req := by
    unfold max_revenue grid_revenues
    rw [hl, List.map_cons]
    exact le_listMax _ _
  have hmax_pos : 0 < max_revenue scaler model_predict encode store req := by
    have := List.mem_map.1 hmax_mem
    obtain ⟨ge, hge, hrev⟩ := this
    rw [← hrev]
    exact (grid_table_mem scaler model_predict encode store req ge hge).2.1
  refine ⟨?_, hmax_mem, hmax_le, ?_⟩
  · obtain ⟨i, hi, hidx, _, _⟩ := idxmaxEntry_spec _ hne
    rw [predict_eq_main scaler model_predict encode store req _ hidx]
    dsimp only
    unfold confidence_rating revenue_diff_pct second_max_revenue max_revenue
      grid_revenues
    rfl
  · unfold second_max_revenue
    split_ifs with hlen
    · cases hrem : removeFirst (max_revenue scaler model_predict encode store req)
          (grid_revenues scaler model_predict encode store req) with
      | nil =>
        show listMax [] ≤ _
        unfold listMax
        exact le_of_lt hmax_pos
      | cons a as =>
        have hmem := listMax_mem a as
        rw [← hrem] at hmem
        have hsub := removeFirst_subset _ _ _ hmem
        rw [hrem] at hsub
        exact hmax_le _ hsub
    · exact le_refl _

/-- Witness for C5 at a concrete request. -/
theorem C5_confidence_witness :
    0 < reqVeg.base_price ∧
    (predict_optimal_discount idScaler zeroModel zeroEncoder [] reqVeg).confidence =
      (if 10 < revenue_diff_pct idScaler zeroModel zeroEncoder [] reqVeg then "High"
       else if 5 < revenue_diff_pct idScaler zeroModel zeroEncoder [] reqVeg then "Medium"
       else "Low") :=
  ⟨by norm_num [reqVeg],
    (C5_confidence idScaler zeroModel zeroEncoder [] reqVeg (by norm_num [reqVeg])).1⟩

/-- C2 counterexample: at base price 10.01 the optimizer reports selling price
7.01, but base_price × (1 − discount/100) is exactly 7.007; the reported
figure is the 2-decimal rounding, not the exact product. -/
theorem C2_exact_price_cex :
    (predict_optimal_discount idScaler zeroModel zeroEncoder [] reqOdd).final_selling_price ≠
      reqOdd.base_price *
        (1 - (predict_optimal_discount idScaler zeroModel zeroEncoder []
          reqOdd).optimal_discount / 100) := by
  with_unfolding_all decide

/-- C2 (amended): the reported selling price equals base_price ×
(1 − final_discount/100) rounded to two decimals, and the reported revenue is
the §4.3 revenue formula re-evaluated at the reported (adjusted) discount,
rounded to two decimals — recomputed, never reused from the grid table. -/
theorem C2_price_revenue_consistency (scaler : List ℚ → List ℚ)
    (model_predict : List ℚ → ℚ) (encode : String → ℚ)
    (store : List HistoryRecord) (req : PricingRequest)
    (h : 0 < req.base_price) :
    (predict_optimal_discount scaler model_predict encode store req).final_selling_price =
      round2 (req.base_price * (1 -
        (predict_optimal_discount scaler model_predict encode store req).optimal_discount
          / 100)) ∧
    (predict_optimal_discount scaler model_predict encode store req).expected_revenue =
      round2 (direct_revenue req.base_price (base_quantity req.past_sales_volume)
        (base_elasticity req.base_price req.category req.past_sales_volume)
        (predict_optimal_discount scaler model_predict encode store req).optimal_discount) := by
  have hne := grid_table_ne_nil scaler model_predict encode store req h
  obtain ⟨i, hi, hidx, _, _⟩ := idxmaxEntry_spec _ hne
  have hround := round2_halfInt (final_discount_halfInt store req
    (mem_discount_range ((grid_table_mem scaler model_predict encode store req _
      (List.getElem_mem hi)).1)).2.2)
  rw [predict_eq_main scaler model_predict encode store req _ hidx]
  dsimp only
  rw [hround]
  exact ⟨rfl, rfl⟩

/-- Witness for C2 at a concrete request. -/
theorem C2_price_revenue_consistency_witness :
    0 < reqVeg.base_price ∧
    (predict_optimal_discount idScaler zeroModel zeroEncoder [] reqVeg).final_selling_price =
      round2 (reqVeg.base_price * (1 -
        (predict_optimal_discount idScaler zeroModel zeroEncoder []
          reqVeg).optimal_discount / 100)) :=
  ⟨by norm_num [reqVeg],
    (C2_price_revenue_consistency idScaler zeroModel zeroEncoder [] reqVeg
      (by norm_num [reqVeg])).1⟩

/-- C8 counterexample: a request with base price −10 is not rejected: the
optimizer returns an ordinary result with negative expected revenue −60. -/
theorem C8_negative_revenue_returned_cex :
    (predict_optimal_discount idScaler zeroModel zeroEncoder [] reqNeg).expected_revenue < 0 ∧
    predict_optimal_discount idScaler zeroModel zeroEncoder [] reqNeg =
      { product := "p9", optimal_discount := 0, expected_revenue := -60,
        final_selling_price := -10, confidence := "Low" } := by
  with_unfolding_all decide

/-- C8 (amended): a negative base price is not rejected — there is no input
validation: every grid candidate then has negative primary revenue, the grid
table is empty, and the degenerate fallback result (discount 0.0, expected
revenue round2(base_price × baseline volume) ≤ 0, final price = base_price,
confidence Low) is returned as an ordinary success result. -/
theorem C8_negative_price_fallback (scaler : List ℚ → List ℚ)
    (model_predict : List ℚ → ℚ) (encode : String → ℚ)
    (store : List HistoryRecord) (req : PricingRequest)
    (h : req.base_price < 0) :
    (∀ d ∈ discount_range, direct_revenue req.base_price
      (base_quantity req.past_sales_volume)
      (base_elasticity req.base_price req.category req.past_sales_volume) d < 0) ∧
    grid_table scaler model_predict encode store req = [] ∧
    predict_optimal_discount scaler model_predict encode store req =
      { product := req.product_id
        optimal_discount := round2 0
        expected_revenue := round2 (req.base_price * base_quantity req.past_sales_volume)
        final_selling_price := round2 req.base_price
        confidence := "Low" } ∧
    (predict_optimal_discount scaler model_predict encode store req).expected_revenue ≤ 0 := by
  have hall : ∀ d ∈ discount_range, direct_revenue req.base_price
      (base_quantity req.past_sales_volume)
      (base_elasticity req.base_price req.category req.past_sales_volume) d < 0 := by
    intro d hd
    obtain ⟨h0, h1, _⟩ := mem_discount_range hd
    exact direct_revenue_neg _ _ _ _ h (base_quantity_pos _) h0 h1
  have hnil : grid_table scaler model_predict encode store req = [] := by
    unfold grid_table revenue_predictions
    apply List.filterMap_eq_nil_iff.2
    intro d hd
    show (if 0 < direct_revenue req.base_price (base_quantity req.past_sales_volume)
        (base_elasticity req.base_price req.category req.past_sales_volume) d then
        some (⟨d, direct_revenue req.base_price (base_quantity req.past_sales_volume)
          (base_elasticity req.base_price req.category req.past_sales_volume) d,
          req.base_price * (1 - d / 100)⟩ : GridEntry)
      else none) = none
    rw [if_neg (not_lt.2 (le_of_lt (hall d hd)))]
  have hfb := predict_eq_fallback scaler model_predict encode store req
    ((idxmaxEntry_eq_none _).2 hnil)
  refine ⟨hall, hnil, hfb, ?_⟩
  rw [hfb]
  dsimp only
  exact round2_nonpos (le_of_lt (mul_neg_of_neg_of_pos h (base_quantity_pos _)))

/-- Witness for C8 at a concrete request. -/
theorem C8_negative_price_fallback_witness :
    reqNeg.base_price < 0 ∧
    (predict_optimal_discount idScaler zeroModel zeroEncoder [] reqNeg).expected_revenue ≤ 0 :=
  ⟨by norm_num [reqNeg],
    (C8_negative_price_fallback idScaler zeroModel zeroEncoder [] reqNeg
      (by norm_num [reqNeg])).2.2.2⟩

/-- C10: the multiplier lookup is case-insensitive ("Dairy" and "dairy" share
multiplier 0.9 and the same elasticity), while the history aggregations match
the category case-sensitively: against a store whose single record has
category "dairy", the request written "dairy" sees percentiles 100 and 0
while the request written "Dairy" sees the defaults 50 and 50, and the two
otherwise identical requests receive different final discounts. -/
theorem C10_category_case_sensitivity :
    category_multiplier "Dairy" = category_multiplier "dairy" ∧
    base_elasticity 50 "Dairy" 20 = base_elasticity 50 "dairy" 20 ∧
    category_sales storeDairy "dairy" = [10] ∧
    category_sales storeDairy "Dairy" = [] ∧
    sales_volume_percentile storeDairy "dairy" 20 = 100 ∧
    sales_volume_percentile storeDairy "Dairy" 20 = 50 ∧
    price_percentile storeDairy "dairy" 50 = 0 ∧
    price_percentile storeDairy "Dairy" 50 = 50 ∧
    (predict_optimal_discount idScaler zeroModel zeroEncoder storeDairy
        reqDairyLower).optimal_discount ≠
      (predict_optimal_discount idScaler zeroModel zeroEncoder storeDairy
        reqDairyUpper).optimal_discount := by
  with_unfolding_all decide
